/-
Verification of the persistent-store layer of the admin back-office.

Two stores are embedded:
* `Muji` — the JSON-document store of `admin.py` (`load_data` / `save_data`
  plus the admin REST handlers that mutate the document).
* `AppDb` — the SQLite store of `database.py` (row lists with fresh-id
  counters standing for `INTEGER PRIMARY KEY AUTOINCREMENT`).

Timestamps (`datetime.now().isoformat()`, `CURRENT_TIMESTAMP`) are passed in
as explicit `String` arguments; file-system effects of `save_uploaded_file`
are represented by the `savedUrl` field of `MultipartFile` (the URL the call
returned, `""` on failure, mirroring the source's empty-string error result).
-/
import Mathlib

namespace Muji

/-- Uploaded multipart file as the handlers observe it: its client-supplied
filename (Python truthiness of `photo.filename` = non-empty string) and the
URL `save_uploaded_file` produced for it (`""` when the write failed). -/
structure MultipartFile where
  filename : String
  savedUrl : String
deriving Repr, DecidableEq

/-- A listing card (`new_profile` dict in `create_profile`). -/
structure Profile where
  id : Nat
  name : String
  age : Int
  gender : String
  nationality : String
  city : String
  travel_cities : List String
  description : String
  photos : List String
  height : Int
  weight : Int
  chest : Int
  visible : Bool
  created_at : String
deriving Repr, DecidableEq

/-- A chat thread of the JSON document (the dict built in
`send_admin_reply` / `send_system_message`). -/
structure ChatJ where
  id : Nat
  profile_id : Nat
  profile_name : String
  created_at : String
deriving Repr, DecidableEq

/-- A message of the JSON document.  The handlers build dicts with differing
key sets (file messages, text messages, system messages); absent keys are
`none`. -/
structure MessageJ where
  id : Nat
  chat_id : Nat
  text : String
  file_url : Option String
  file_type : Option String
  file_name : Option String
  is_from_user : Option Bool
  is_system : Option Bool
  created_at : String
deriving Repr, DecidableEq

/-- A comment row of the JSON document. -/
structure CommentJ where
  id : Nat
  profile_id : Nat
  user_name : String
  text : String
  created_at : String
deriving Repr, DecidableEq

/-- A promocode row (`new_promocode` in `create_admin_promocode`). -/
structure Promocode where
  id : Nat
  code : String
  discount : Int
  is_active : Bool
  used_by : List Int
  created_at : String
deriving Repr, DecidableEq

/-- Banner settings. -/
structure Banner where
  text : String
  visible : Bool
  link : String
  link_text : String
deriving Repr, DecidableEq

/-- One VIP catalog tier. -/
structure VipCatalog where
  name : String
  price : Int
  redirect_url : String
  visible : Bool
deriving Repr, DecidableEq

/-- The `settings` sub-document. -/
structure Settings where
  crypto_wallets : List (String × String)
  banner : Banner
  vip_catalogs : List (String × VipCatalog)
deriving Repr, DecidableEq

/-- The whole JSON document (`data.json`) as `load_data` returns it. -/
structure AdminData where
  profiles : List Profile
  vip_profiles : List Profile
  chats : List ChatJ
  messages : List MessageJ
  comments : List CommentJ
  promocodes : List Promocode
  settings : Settings
deriving Repr, DecidableEq

/-- The default document `load_data` builds when `data.json` is absent. -/
def defaultData : AdminData :=
  { profiles := []
    vip_profiles := []
    chats := []
    messages := []
    comments := []
    promocodes := []
    settings :=
      { crypto_wallets :=
          [("trc20", "TY76gU8J9o8j7U6tY5r4E3W2Q1"),
           ("erc20", "0x8a9C6e5D8b0E2a1F3c4B6E7D8C9A0B1C2D3E4F5"),
           ("bnb", "bnb1q3e5r7t9y1u3i5o7p9l1k3j5h7g9f2d4s6q8w0")]
        banner :=
          { text := "Special Offer: 15% discount with promo code WELCOME15"
            visible := true
            link := "https://t.me/yourchannel"
            link_text := "Join Channel" }
        vip_catalogs :=
          [("vip", { name := "VIP Catalog", price := 100,
                     redirect_url := "https://t.me/vip_channel", visible := true }),
           ("extra_vip", { name := "Extra VIP", price := 200,
                           redirect_url := "https://t.me/extra_vip_channel", visible := true }),
           ("secret", { name := "Secret Catalog", price := 300,
                        redirect_url := "https://t.me/secret_channel", visible := true })] } }

/-- An `HTTPException(status_code, detail)` raised by a handler. -/
structure HTTPEx where
  status : Nat
  detail : String
deriving Repr, DecidableEq

/-- Python `str(e)` for an `HTTPException` (`"{status_code}: {detail}"`). -/
def HTTPEx.str (e : HTTPEx) : String :=
  toString e.status ++ ": " ++ e.detail

/-- Python `str.upper()` on the ASCII strings promocodes use: uppercase
every character.  (`String.toUpper` computes the same letter mapping but is
not kernel-reducible, so the character-list map is used instead.) -/
def pyUpper (s : String) : String :=
  ⟨s.data.map Char.toUpper⟩

/-- Python `str.strip()` (`form.get("text", "").strip()`): drop whitespace
from both ends.  (`String.trim` computes the same result but is not
kernel-reducible, so the character-list form is used instead.) -/
def pyStrip (s : String) : String :=
  ⟨((s.data.dropWhile Char.isWhitespace).reverse.dropWhile
      Char.isWhitespace).reverse⟩

/-- `get_file_type`: classify by the lowercased extension
(`filename.lower().split('.')[-1]`). -/
def get_file_type (filename : String) : String :=
  let extension := (filename.toLower.splitOn ".").getLastD ""
  if extension ∈ ["jpg", "jpeg", "png", "gif", "bmp", "webp"] then "image"
  else if extension ∈ ["mp4", "avi", "mov", "mkv", "webm"] then "video"
  else "file"

/-- The photo URLs `create_profile` keeps: files with a (truthy) filename
whose `save_uploaded_file` call returned a non-empty URL. -/
def photoUrls (photos : List MultipartFile) : List String :=
  photos.filterMap fun ph =>
    if ph.filename ≠ "" ∧ ph.savedUrl ≠ "" then some ph.savedUrl else none

/-- `max([p["id"] for p in data["profiles"]]) if data["profiles"] else 0`. -/
def maxProfileId (ps : List Profile) : Nat :=
  (ps.map (·.id)).foldr Nat.max 0

/-- The form fields of `POST /api/admin/profiles`.  `travel_cities` is kept
already split into a list (the source parses the raw form string by JSON or
comma-splitting before storing it; that parse does not affect any claim). -/
structure ProfileForm where
  name : String
  age : Int
  gender : String
  nationality : String
  city : String
  travel_cities : List String
  description : String
  height : Int
  weight : Int
  chest : Int
  photos : List MultipartFile
deriving Repr, DecidableEq

/-- `create_profile`: compute `max_id`, save photos, reject with 400 when no
photo survived, else append the new profile with id `max_id + 1`. -/
def create_profile (d : AdminData) (form : ProfileForm) (now : String) :
    Except HTTPEx (AdminData × Profile) :=
  let max_id := maxProfileId d.profiles
  let photo_urls := photoUrls form.photos
  if photo_urls = [] then
    .error { status := 400, detail := "At least one photo is required" }
  else
    let new_profile : Profile :=
      { id := max_id + 1
        name := form.name
        age := form.age
        gender := form.gender
        nationality := form.nationality
        city := form.city
        travel_cities := form.travel_cities
        description := form.description
        photos := photo_urls
        height := form.height
        weight := form.weight
        chest := form.chest
        visible := true
        created_at := now }
    .ok ({ d with profiles := d.profiles ++ [new_profile] }, new_profile)

/-- The in-memory cascade of `delete_profile`: drop the listing row, the
chats referencing it, the messages of those chats, and its comments. -/
def delete_profile_data (d : AdminData) (profile_id : Nat) : AdminData :=
  let profile_chat_ids :=
    (d.chats.filter fun c => decide (c.profile_id = profile_id)).map (·.id)
  { d with
    profiles := d.profiles.filter fun p => decide (p.id ≠ profile_id)
    chats := d.chats.filter fun c => decide (c.profile_id ≠ profile_id)
    messages := d.messages.filter fun m => decide (m.chat_id ∉ profile_chat_ids)
    comments := d.comments.filter fun c => decide (c.profile_id ≠ profile_id) }

/-- `save_data` as the handlers observe it: the document write either fully
replaces the persisted document (returning `True`) or raises, in which case
the exception is caught, logged, and `False` returned with the previous
document still persisted.  `writeOk` stands for whether `json.dump`
succeeded. -/
def save_data (disk newData : AdminData) (writeOk : Bool) : AdminData × Bool :=
  if writeOk then (newData, true) else (disk, false)

/-- The `DELETE /api/admin/profiles/{id}` handler end to end: load, cascade
in memory, `save_data`, and answer `{"status": "deleted"}` — the boolean
`save_data` returns is ignored. -/
def delete_profile (disk : AdminData) (profile_id : Nat) (writeOk : Bool) :
    AdminData × String :=
  let data := delete_profile_data disk profile_id
  let (disk2, _saved) := save_data disk data writeOk
  (disk2, "deleted")

/-- Find the chat of a profile (`next(c for c in data["chats"] if
c["profile_id"] == profile_id)`), creating and appending one with id
`len(data["chats"]) + 1` when absent — shared by both message handlers. -/
def findOrCreateChat (d : AdminData) (profile_id : Nat) (profile_name now : String) :
    ChatJ × AdminData :=
  match d.chats.find? fun c => decide (c.profile_id = profile_id) with
  | some c => (c, d)
  | none =>
      let chat : ChatJ :=
        { id := d.chats.length + 1
          profile_id := profile_id
          profile_name := profile_name
          created_at := now }
      (chat, { d with chats := d.chats ++ [chat] })

/-- `send_system_message`: 404 when the profile is absent, else find or
create the chat and append a system message with id
`len(data["messages"]) + 1`. -/
def send_system_message (d : AdminData) (profile_id : Nat) (text now : String) :
    Except HTTPEx (AdminData × Nat) :=
  match d.profiles.find? fun p => decide (p.id = profile_id) with
  | none => .error { status := 404, detail := "Profile not found" }
  | some profile =>
      let (chat, d1) := findOrCreateChat d profile_id profile.name now
      let system_message : MessageJ :=
        { id := d1.messages.length + 1
          chat_id := chat.id
          text := text
          file_url := none
          file_type := none
          file_name := none
          is_from_user := none
          is_system := some true
          created_at := now }
      .ok ({ d1 with messages := d1.messages ++ [system_message] },
           system_message.id)

/-- Append the file messages of `send_admin_reply`: one message per form
file with a truthy filename whose upload returned a non-empty URL, each
assigned id `len(data["messages"]) + 1` at its own append. -/
def appendFileMessages (d : AdminData) (chat_id : Nat) (text now : String)
    (files : List MultipartFile) : AdminData :=
  files.foldl
    (fun acc f =>
      if f.filename ≠ "" ∧ f.savedUrl ≠ "" then
        { acc with messages := acc.messages ++
            [{ id := acc.messages.length + 1
               chat_id := chat_id
               text := text
               file_url := some f.savedUrl
               file_type := some (get_file_type f.filename)
               file_name := some f.filename
               is_from_user := some false
               is_system := none
               created_at := now }] }
      else acc)
    d

/-- `send_admin_reply`: 404 outside the try-block when the profile is
absent; inside the try-block the stripped text and the files decide what is
appended, and a request with neither raises `HTTPException(400, ...)` —
which the surrounding `except Exception` catches and re-raises as a 500
whose detail wraps `str(e)`, leaving the persisted document unchanged
(`save_data` is never reached). -/
def send_admin_reply (d : AdminData) (profile_id : Nat) (rawText : String)
    (files : List MultipartFile) (now : String) :
    AdminData × Except HTTPEx Unit :=
  match d.profiles.find? fun p => decide (p.id = profile_id) with
  | none => (d, .error { status := 404, detail := "Profile not found" })
  | some profile =>
      let (chat, d1) := findOrCreateChat d profile_id profile.name now
      let text := pyStrip rawText
      let has_text := text ≠ ""
      let has_files := files.any fun f =>
        decide (f.filename ≠ "") && decide (f.savedUrl ≠ "")
      if ¬has_files ∧ ¬has_text then
        let e : HTTPEx := { status := 400, detail := "Text or files is required" }
        (d, .error { status := 500, detail := "Error sending message: " ++ e.str })
      else
        let d2 := appendFileMessages d1 chat.id text now files
        let d3 :=
          if ¬has_files ∧ has_text then
            { d2 with messages := d2.messages ++
                [{ id := d2.messages.length + 1
                   chat_id := chat.id
                   text := text
                   file_url := none
                   file_type := none
                   file_name := none
                   is_from_user := some false
                   is_system := none
                   created_at := now }] }
          else d2
        (d3, .ok ())

/-- `create_admin_promocode`: reject with 400 when a stored promocode
already carries the uppercased incoming code, else append a new promocode
storing the code uppercased. -/
def create_admin_promocode (d : AdminData) (code : String) (discount : Int)
    (now : String) : AdminData × Except HTTPEx Promocode :=
  match d.promocodes.find? fun p => decide (p.code = pyUpper code) with
  | some _ => (d, .error { status := 400, detail := "Promocode already exists" })
  | none =>
      let new_promocode : Promocode :=
        { id := d.promocodes.length + 1
          code := pyUpper code
          discount := discount
          is_active := true
          used_by := []
          created_at := now }
      ({ d with promocodes := d.promocodes ++ [new_promocode] },
       .ok new_promocode)

end Muji

namespace AppDb

/-- A row of the `users` table. -/
structure UserRow where
  id : Nat
  telegram_id : Int
  username : Option String
  first_name : Option String
  last_name : Option String
  language_code : String
  is_premium : Bool
  created_at : String
  last_login : String
deriving Repr, DecidableEq

/-- A row of the `files` table. -/
structure FileRow where
  id : Nat
  user_id : Nat
  telegram_user_id : Int
  filename : String
  original_filename : String
  file_path : String
  file_size : Int
  mime_type : String
  uploaded_at : String
deriving Repr, DecidableEq

/-- A row of the `chats` table (`telegram_user_id` is a nullable column). -/
structure ChatRow where
  id : Nat
  profile_id : Nat
  profile_name : String
  telegram_user_id : Option Int
  last_read_message_id : Nat
  created_at : String
deriving Repr, DecidableEq

/-- A row of the `messages` table. -/
structure MessageRow where
  id : Nat
  chat_id : Nat
  is_from_user : Bool
  is_system : Bool
  text : Option String
  file_url : Option String
  file_type : Option String
  file_name : Option String
  created_at : String
deriving Repr, DecidableEq

/-- A row of the `orders` table.  The `REAL` money columns are modelled as
rationals; `expires_at` is a nullable `DATETIME` text column. -/
structure OrderRow where
  id : Nat
  order_number : String
  profile_id : Nat
  telegram_user_id : Option Int
  amount : Rat
  bonus_amount : Rat
  total_amount : Rat
  crypto_type : Option String
  currency : String
  status : String
  created_at : String
  expires_at : Option String
deriving Repr, DecidableEq

/-- A row of the `comments` table. -/
structure CommentRow where
  id : Nat
  profile_id : Nat
  user_name : String
  text : String
  created_at : String
deriving Repr, DecidableEq

/-- The SQLite database: the six tables of `init_database`, each with the
fresh-id counter of its `INTEGER PRIMARY KEY AUTOINCREMENT` column (an
insert takes the counter as its rowid and bumps it). -/
structure DbState where
  users : List UserRow
  files : List FileRow
  chats : List ChatRow
  messages : List MessageRow
  orders : List OrderRow
  comments : List CommentRow
  next_user_id : Nat
  next_file_id : Nat
  next_chat_id : Nat
  next_message_id : Nat
  next_order_id : Nat
  next_comment_id : Nat
deriving Repr, DecidableEq

/-- The `get_db_connection` context manager: the body runs against the
connection; on success the transaction commits, on an exception it rolls
back (the durable state stays as it was) and the exception is re-raised to
the caller. -/
def runTransaction {α : Type} (op : DbState → Except String (DbState × α))
    (db : DbState) : DbState × Except String α :=
  match op db with
  | .ok (db2, a) => (db2, .ok a)
  | .error e => (db, .error e)

/-- `add_file`: insert the file row with the caller-supplied `user_id` and
`telegram_user_id` and return `cursor.lastrowid`.  The function performs no
lookup against the `users` table. -/
def add_file (db : DbState) (user_id : Nat) (telegram_user_id : Int)
    (filename original_filename file_path : String) (file_size : Int)
    (mime_type : String) (now : String) : DbState × Nat :=
  let row : FileRow :=
    { id := db.next_file_id
      user_id := user_id
      telegram_user_id := telegram_user_id
      filename := filename
      original_filename := original_filename
      file_path := file_path
      file_size := file_size
      mime_type := mime_type
      uploaded_at := now }
  ({ db with files := db.files ++ [row], next_file_id := db.next_file_id + 1 },
   row.id)

/-- `get_file_by_id`: `SELECT ... FROM files WHERE id = ? AND
telegram_user_id = ?` — the lookup is always conjoined with the ownership
key and yields `None` when no row satisfies both. -/
def get_file_by_id (db : DbState) (file_id : Nat) (telegram_user_id : Int) :
    Option FileRow :=
  db.files.find? fun f =>
    decide (f.id = file_id) && decide (f.telegram_user_id = telegram_user_id)

/-- Python truthiness of the `Optional[int] = None` chat owner: `if
telegram_user_id:` is taken exactly when the value is neither `None` nor
`0`. -/
def ownerTruthy : Option Int → Bool
  | none => false
  | some v => decide (v ≠ 0)

/-- The row predicate of `create_chat`'s lookup: when the owner argument is
truthy the query is `profile_id = ? AND telegram_user_id = ?`, otherwise it
is `profile_id = ? AND telegram_user_id IS NULL`. -/
def chatLookup (profile_id : Nat) (telegram_user_id : Option Int)
    (c : ChatRow) : Bool :=
  if ownerTruthy telegram_user_id then
    decide (c.profile_id = profile_id) &&
      decide (c.telegram_user_id = telegram_user_id)
  else
    decide (c.profile_id = profile_id) && decide (c.telegram_user_id = none)

/-- `create_chat`: return the existing chat the lookup finds, else insert a
new row carrying the owner argument as given (so an owner of `0` is stored
as `0`, not as NULL) and return it. -/
def create_chat (db : DbState) (profile_id : Nat) (profile_name : String)
    (telegram_user_id : Option Int) (now : String) : ChatRow × DbState :=
  match db.chats.find? (chatLookup profile_id telegram_user_id) with
  | some chat => (chat, db)
  | none =>
      let chat : ChatRow :=
        { id := db.next_chat_id
          profile_id := profile_id
          profile_name := profile_name
          telegram_user_id := telegram_user_id
          last_read_message_id := 0
          created_at := now }
      (chat,
       { db with chats := db.chats ++ [chat],
                 next_chat_id := db.next_chat_id + 1 })

/-- SQLite `expires_at < ?` on the nullable text column: NULL compares as
unknown (the row is not selected), otherwise the texts compare under the
default binary collation. -/
def expiresBefore : Option String → String → Bool
  | none, _ => false
  | some s, cutoff => decide (s < cutoff)

/-- The row predicate of `delete_expired_orders`:
`status = 'unpaid' AND expires_at < cutoff`. -/
def expiredUnpaid (cutoff : String) (o : OrderRow) : Bool :=
  decide (o.status = "unpaid") && expiresBefore o.expires_at cutoff

/-- `delete_expired_orders`: delete the rows matching `expiredUnpaid` and
return `cursor.rowcount`, the number of rows removed. -/
def delete_expired_orders (db : DbState) (cutoff : String) : DbState × Nat :=
  ({ db with orders := db.orders.filter fun o => !(expiredUnpaid cutoff o) },
   (db.orders.filter (expiredUnpaid cutoff)).length)

end AppDb

section Helpers

/-- `find?` returns the element when it is the unique satisfier in the
list. -/
theorem find?_eq_some_of_unique {α : Type} (p : α → Bool) (l : List α) (a : α)
    (ha : a ∈ l) (hpa : p a = true)
    (huniq : ∀ b ∈ l, p b = true → b = a) : l.find? p = some a := by
  induction l with
  | nil => cases ha
  | cons x xs ih =>
      by_cases hx : p x = true
      · have : x = a := huniq x (List.mem_cons_self x xs) hx
        rw [List.find?_cons_of_pos xs hx, this]
      · have hxne : x ≠ a := fun h => hx (h ▸ hpa)
        have ha' : a ∈ xs := by
          cases List.mem_cons.mp ha with
          | inl h => exact absurd h.symm hxne
          | inr h => exact h
        rw [List.find?_cons_of_neg _ (by simpa using hx)]
        exact ih ha' fun b hb hpb => huniq b (List.mem_cons_of_mem _ hb) hpb

/-- Elements of a list whose image under `f` has no duplicates are equal as
soon as their images are. -/
theorem eq_of_nodup_map {α β : Type} (f : α → β) (l : List α)
    (hnd : (l.map f).Nodup) {a b : α} (ha : a ∈ l) (hb : b ∈ l)
    (hfab : f a = f b) : a = b :=
  List.inj_on_of_nodup_map hnd ha hb hfab

/-- Splitting a list by a predicate preserves its length. -/
theorem length_filter_add_length_filter_not {α : Type} (p : α → Bool)
    (l : List α) :
    (l.filter p).length + (l.filter fun a => !(p a)).length = l.length := by
  induction l with
  | nil => rfl
  | cons x xs ih =>
      cases hx : p x <;> simp [List.filter_cons, hx] <;> omega

/-- `findOrCreateChat` leaves the message list untouched: the chat lookup
or insert in both admin message handlers never edits `data["messages"]`. -/
theorem findOrCreateChat_messages (d : Muji.AdminData) (pid : Nat)
    (nm now : String) :
    (Muji.findOrCreateChat d pid nm now).2.messages = d.messages := by
  unfold Muji.findOrCreateChat
  cases d.chats.find? fun c => decide (c.profile_id = pid) <;> rfl

end Helpers

/-- C1: deleting listing L through `delete_profile` removes, in the single
resulting document, every chat referencing L, every message belonging to a
chat that referenced L, every comment on L, and the listing row itself — no
row referencing L directly or through a deleted chat survives. -/
theorem C1_delete_profile_cascade_complete (d : Muji.AdminData) (L : Nat) :
    (∀ p ∈ (Muji.delete_profile_data d L).profiles, p.id ≠ L) ∧
    (∀ c ∈ (Muji.delete_profile_data d L).chats, c.profile_id ≠ L) ∧
    (∀ m ∈ (Muji.delete_profile_data d L).messages,
        ∀ c ∈ d.chats, c.profile_id = L → m.chat_id ≠ c.id) ∧
    (∀ cm ∈ (Muji.delete_profile_data d L).comments, cm.profile_id ≠ L) := by
  refine ⟨?_, ?_, ?_, ?_⟩
  · intro p hp
    have := (List.mem_filter.mp hp).2
    simpa using this
  · intro c hc
    have := (List.mem_filter.mp hc).2
    simpa using this
  · intro m hm c hc hcL
    have hnot := (List.mem_filter.mp hm).2
    simp only [decide_eq_true_eq] at hnot
    intro hEq
    apply hnot
    apply List.mem_map.mpr
    refine ⟨c, List.mem_filter.mpr ⟨hc, by simpa using hcL⟩, hEq.symm⟩
  · intro cm hcm
    have := (List.mem_filter.mp hcm).2
    simpa using this

/-- C1 witness: the cascade facts instantiated on a concrete two-listing
store. -/
def c1Store : Muji.AdminData :=
  { Muji.defaultData with
    profiles := [{ id := 1, name := "A", age := 21, gender := "f",
                   nationality := "x", city := "y", travel_cities := [],
                   description := "", photos := ["/uploads/a.jpg"],
                   height := 170, weight := 55, chest := 3, visible := true,
                   created_at := "t0" }]
    chats := [{ id := 1, profile_id := 1, profile_name := "A", created_at := "t0" }]
    messages := [{ id := 1, chat_id := 1, text := "hi", file_url := none,
                   file_type := none, file_name := none,
                   is_from_user := some true, is_system := none,
                   created_at := "t0" }]
    comments := [{ id := 1, profile_id := 1, user_name := "Anonymous User",
                   text := "nice", created_at := "t0" }] }

/-- Witness for C1: the theorem applied to the concrete store and listing 1. -/
theorem C1_delete_profile_cascade_complete_witness :
    (∀ p ∈ (Muji.delete_profile_data c1Store 1).profiles, p.id ≠ 1) ∧
    (∀ c ∈ (Muji.delete_profile_data c1Store 1).chats, c.profile_id ≠ 1) ∧
    (∀ m ∈ (Muji.delete_profile_data c1Store 1).messages,
        ∀ c ∈ c1Store.chats, c.profile_id = 1 → m.chat_id ≠ c.id) ∧
    (∀ cm ∈ (Muji.delete_profile_data c1Store 1).comments, cm.profile_id ≠ 1) :=
  C1_delete_profile_cascade_complete c1Store 1

/-- The empty SQLite database right after `init_database`: all tables empty
and every autoincrement counter at 1. -/
def emptyDb : AppDb.DbState :=
  { users := [], files := [], chats := [], messages := [], orders := [],
    comments := [], next_user_id := 1, next_file_id := 1, next_chat_id := 1,
    next_message_id := 1, next_order_id := 1, next_comment_id := 1 }

/-- File ids are unique — the invariant SQLite's `INTEGER PRIMARY KEY`
column maintains on the `files` table. -/
def filesWF (db : AppDb.DbState) : Prop :=
  (db.files.map (·.id)).Nodup

/-- C2: the file lookup is always conjoined with the ownership key — for a
file stored under owner A, querying with A's key returns the file and
querying with any other key B returns `none` (the not-found result, never
a permission error). -/
theorem C2_get_file_ownership_isolation (db : AppDb.DbState)
    (f : AppDb.FileRow) (b : Int) (hwf : filesWF db) (hmem : f ∈ db.files)
    (hb : b ≠ f.telegram_user_id) :
    AppDb.get_file_by_id db f.id f.telegram_user_id = some f ∧
    AppDb.get_file_by_id db f.id b = none := by
  have hwf' : (db.files.map (·.id)).Nodup := hwf
  constructor
  · apply find?_eq_some_of_unique _ _ _ hmem (by simp)
    intro g hg hpg
    simp only [Bool.and_eq_true, decide_eq_true_eq] at hpg
    exact eq_of_nodup_map (·.id) db.files hwf' hg hmem hpg.1
  · apply List.find?_eq_none.mpr
    intro g hg hpg
    simp only [Bool.and_eq_true, decide_eq_true_eq] at hpg
    have : g = f := eq_of_nodup_map (·.id) db.files hwf' hg hmem hpg.1
    exact hb (this ▸ hpg.2).symm

/-- A concrete database for the C2 witness: users 100 and 200, one file
owned by 100. -/
def c2Db : AppDb.DbState :=
  { emptyDb with
    users :=
      [{ id := 1, telegram_id := 100, username := some "alice",
         first_name := none, last_name := none, language_code := "en",
         is_premium := false, created_at := "t0", last_login := "t0" },
       { id := 2, telegram_id := 200, username := some "bob",
         first_name := none, last_name := none, language_code := "en",
         is_premium := false, created_at := "t0", last_login := "t0" }]
    files :=
      [{ id := 1, user_id := 1, telegram_user_id := 100,
         filename := "x.bin", original_filename := "x.bin",
         file_path := "/up/x.bin", file_size := 10, mime_type := "app/bin",
         uploaded_at := "t1" }]
    next_user_id := 3, next_file_id := 2 }

/-- The file row stored in `c2Db`. -/
def c2File : AppDb.FileRow :=
  { id := 1, user_id := 1, telegram_user_id := 100, filename := "x.bin",
    original_filename := "x.bin", file_path := "/up/x.bin", file_size := 10,
    mime_type := "app/bin", uploaded_at := "t1" }

/-- Witness for C2: owner 100 retrieves the file, owner 200 gets
not-found. -/
theorem C2_get_file_ownership_isolation_witness :
    AppDb.get_file_by_id c2Db c2File.id c2File.telegram_user_id = some c2File ∧
    AppDb.get_file_by_id c2Db c2File.id 200 = none :=
  C2_get_file_ownership_isolation c2Db c2File 200
    (show (c2Db.files.map (·.id)).Nodup by decide) (by decide) (by decide)

section ChatLemmas

/-- Any chat matched by `create_chat`'s lookup references the queried
listing. -/
theorem chatLookup_profile {L : Nat} {o : Option Int} {c : AppDb.ChatRow}
    (h : AppDb.chatLookup L o c = true) : c.profile_id = L := by
  unfold AppDb.chatLookup at h
  by_cases ht : AppDb.ownerTruthy o = true <;>
    simp [ht, Bool.and_eq_true, decide_eq_true_eq] at h <;> exact h.1

/-- When the owner argument is truthy, a matched chat carries exactly that
owner. -/
theorem chatLookup_owner_of_truthy {L : Nat} {o : Option Int}
    {c : AppDb.ChatRow} (ht : AppDb.ownerTruthy o = true)
    (h : AppDb.chatLookup L o c = true) : c.telegram_user_id = o := by
  unfold AppDb.chatLookup at h
  simp [ht, Bool.and_eq_true, decide_eq_true_eq] at h
  exact h.2

/-- When the owner argument is not truthy (None, or 0), the lookup matches
only NULL-owner chats. -/
theorem chatLookup_owner_of_not_truthy {L : Nat} {o : Option Int}
    {c : AppDb.ChatRow} (ht : AppDb.ownerTruthy o = false)
    (h : AppDb.chatLookup L o c = true) : c.telegram_user_id = none := by
  unfold AppDb.chatLookup at h
  simp [ht, Bool.and_eq_true, decide_eq_true_eq] at h
  exact h.2

/-- The chat row `create_chat` inserts satisfies its own lookup as long as
the owner argument is not `some 0`. -/
theorem chatLookup_inserted (L : Nat) (o : Option Int) (hn : o ≠ some 0)
    (next : Nat) (nm now : String) :
    AppDb.chatLookup L o
      { id := next, profile_id := L, profile_name := nm,
        telegram_user_id := o, last_read_message_id := 0,
        created_at := now } = true := by
  unfold AppDb.chatLookup AppDb.ownerTruthy
  match o with
  | none => simp
  | some v =>
      have hv : v ≠ 0 := fun h => hn (by rw [h])
      simp [hv]

/-- `create_chat` when the lookup finds an existing row: return it, state
untouched. -/
theorem create_chat_of_found {db : AppDb.DbState} {L : Nat} {o : Option Int}
    {c : AppDb.ChatRow} (nm now : String)
    (h : db.chats.find? (AppDb.chatLookup L o) = some c) :
    AppDb.create_chat db L nm o now = (c, db) := by
  unfold AppDb.create_chat
  rw [h]

/-- `create_chat` when the lookup finds nothing: insert a fresh row with the
next chat id and return it. -/
theorem create_chat_of_not_found {db : AppDb.DbState} {L : Nat}
    {o : Option Int} (nm now : String)
    (h : db.chats.find? (AppDb.chatLookup L o) = none) :
    AppDb.create_chat db L nm o now =
      ({ id := db.next_chat_id, profile_id := L, profile_name := nm,
         telegram_user_id := o, last_read_message_id := 0,
         created_at := now },
       { db with
         chats := db.chats ++
           [{ id := db.next_chat_id, profile_id := L, profile_name := nm,
              telegram_user_id := o, last_read_message_id := 0,
              created_at := now }],
         next_chat_id := db.next_chat_id + 1 }) := by
  unfold AppDb.create_chat
  rw [h]

end ChatLemmas

/-- Chat ids are unique and below the autoincrement counter — the invariant
SQLite maintains on the `chats` table. -/
def chatsWF (db : AppDb.DbState) : Prop :=
  (∀ c ∈ db.chats, c.id < db.next_chat_id) ∧ (db.chats.map (·.id)).Nodup

/-- C3 counterexample: for owner value 0 — a concrete value the
`Optional[int]` argument admits — `create_chat` is not idempotent: the
lookup runs the `IS NULL` branch (Python truthiness) while the insert
stores 0, so two calls with owner 0 on the same listing return chats with
ids 1 and 2. -/
theorem C3_counterexample :
    (AppDb.create_chat emptyDb 1 "Test" (some 0) "t1").1.id = 1 ∧
    (AppDb.create_chat (AppDb.create_chat emptyDb 1 "Test" (some 0) "t1").2 1
        "Test" (some 0) "t2").1.id = 2 ∧
    (AppDb.create_chat emptyDb 1 "Test" (some 0) "t1").1.id ≠
      (AppDb.create_chat (AppDb.create_chat emptyDb 1 "Test" (some 0) "t1").2
          1 "Test" (some 0) "t2").1.id := by
  decide

/-- C3 (amended): for every owner value that is None or a nonzero concrete
external id, `create_chat` called twice for the same listing returns the
same chat id (idempotent get-or-create), and the chat returned for a
nonzero concrete owner is a different row than the anonymous (NULL-owner)
chat.  Owner 0 is excluded: Python truthiness makes its lookup run the
`IS NULL` branch while the insert stores 0, breaking idempotency (see the
counterexample). -/
theorem C3_create_chat_amended (db : AppDb.DbState) (L : Nat)
    (nm nm2 : String) (o : Option Int) (u : Int) (t1 t2 : String)
    (hwf : chatsWF db) (ho : o ≠ some 0) (hu : u ≠ 0) :
    ((AppDb.create_chat db L nm o t1).1.id =
      (AppDb.create_chat (AppDb.create_chat db L nm o t1).2 L nm2 o
          t2).1.id) ∧
    ((AppDb.create_chat db L nm (some u) t1).1.id ≠
      (AppDb.create_chat (AppDb.create_chat db L nm (some u) t1).2 L nm2 none
          t2).1.id) := by
  obtain ⟨hbound, hnodup⟩ := hwf
  have hnodup' : (db.chats.map (·.id)).Nodup := hnodup
  constructor
  · -- idempotency
    cases h : db.chats.find? (AppDb.chatLookup L o) with
    | some c =>
        rw [create_chat_of_found nm t1 h, create_chat_of_found nm2 t2 h]
    | none =>
        rw [create_chat_of_not_found nm t1 h]
        have hfind2 :
            (db.chats ++
              [({ id := db.next_chat_id, profile_id := L, profile_name := nm,
                  telegram_user_id := o, last_read_message_id := 0,
                  created_at := t1 } : AppDb.ChatRow)]).find?
                (AppDb.chatLookup L o) =
            some { id := db.next_chat_id, profile_id := L, profile_name := nm,
                   telegram_user_id := o, last_read_message_id := 0,
                   created_at := t1 } := by
          rw [List.find?_append, h]
          simp [List.find?_cons_of_pos _ (chatLookup_inserted L o ho db.next_chat_id nm t1)]
        rw [create_chat_of_found nm2 t2 hfind2]
  · -- owned chat vs anonymous chat
    have hutruthy : AppDb.ownerTruthy (some u) = true := by
      simp [AppDb.ownerTruthy, hu]
    cases h1 : db.chats.find? (AppDb.chatLookup L (some u)) with
    | some c1 =>
        rw [create_chat_of_found nm t1 h1]
        have hc1mem : c1 ∈ db.chats := List.mem_of_find?_eq_some h1
        have hc1p : AppDb.chatLookup L (some u) c1 = true :=
          List.find?_some h1
        have hc1owner : c1.telegram_user_id = some u :=
          chatLookup_owner_of_truthy hutruthy hc1p
        cases h2 : db.chats.find? (AppDb.chatLookup L none) with
        | some c2 =>
            rw [create_chat_of_found nm2 t2 h2]
            have hc2mem : c2 ∈ db.chats := List.mem_of_find?_eq_some h2
            have hc2owner : c2.telegram_user_id = none :=
              chatLookup_owner_of_not_truthy
                (show AppDb.ownerTruthy none = false from rfl)
                (List.find?_some h2)
            intro hid
            have : c1 = c2 :=
              eq_of_nodup_map (·.id) db.chats hnodup' hc1mem hc2mem hid
            rw [this, hc2owner] at hc1owner
            cases hc1owner
        | none =>
            rw [create_chat_of_not_found nm2 t2 h2]
            have : c1.id < db.next_chat_id := hbound c1 hc1mem
            exact Nat.ne_of_lt this
    | none =>
        rw [create_chat_of_not_found nm t1 h1]
        have hnew2 :
            (db.chats ++
              [({ id := db.next_chat_id, profile_id := L, profile_name := nm,
                  telegram_user_id := some u, last_read_message_id := 0,
                  created_at := t1 } : AppDb.ChatRow)]).find?
                (AppDb.chatLookup L none) =
            db.chats.find? (AppDb.chatLookup L none) := by
          rw [List.find?_append]
          have : AppDb.chatLookup L none
              { id := db.next_chat_id, profile_id := L, profile_name := nm,
                telegram_user_id := some u, last_read_message_id := 0,
                created_at := t1 } = false := by
            simp [AppDb.chatLookup, AppDb.ownerTruthy]
          rw [List.find?_cons_of_neg _ (by simp [this]), List.find?_nil]
          cases db.chats.find? (AppDb.chatLookup L none) <;> rfl
        cases h2 : db.chats.find? (AppDb.chatLookup L none) with
        | some c2 =>
            rw [h2] at hnew2
            rw [create_chat_of_found nm2 t2 hnew2]
            have hc2mem : c2 ∈ db.chats := List.mem_of_find?_eq_some h2
            have : c2.id < db.next_chat_id := hbound c2 hc2mem
            exact (Nat.ne_of_lt this).symm
        | none =>
            rw [h2] at hnew2
            rw [create_chat_of_not_found nm2 t2 hnew2]
            simp
  
/-- Witness for C3 (amended): a concrete run on the empty database with
owner 5. -/
theorem C3_create_chat_amended_witness :
    ((AppDb.create_chat emptyDb 1 "Test" (some 5) "t1").1.id =
      (AppDb.create_chat (AppDb.create_chat emptyDb 1 "Test" (some 5) "t1").2
          1 "Test" (some 5) "t2").1.id) ∧
    ((AppDb.create_chat emptyDb 1 "Test" (some 5) "t1").1.id ≠
      (AppDb.create_chat (AppDb.create_chat emptyDb 1 "Test" (some 5) "t1").2
          1 "Test" none "t2").1.id) :=
  C3_create_chat_amended emptyDb 1 "Test" "Test" (some 5) 5 "t1" "t2"
    ⟨by simp [emptyDb], by simp [emptyDb]⟩ (by decide) (by decide)

/-- C4: a created listing gets id `max(existing ids) + 1`, or 1 when no
listing exists — so after a full wipe the next id is 1 and with listings
{1,3} present the next id is 4 (see the witness). -/
theorem C4_create_profile_max_plus_one (d : Muji.AdminData)
    (form : Muji.ProfileForm) (now : String)
    (h : Muji.photoUrls form.photos ≠ []) :
    ∃ d2 p, Muji.create_profile d form now = .ok (d2, p) ∧
      p.id = Muji.maxProfileId d.profiles + 1 ∧
      (d.profiles = [] → p.id = 1) ∧
      d2.profiles = d.profiles ++ [p] := by
  unfold Muji.create_profile
  rw [if_neg h]
  refine ⟨_, _, rfl, rfl, ?_, rfl⟩
  intro he
  simp [Muji.maxProfileId, he]

/-- A listing row with a given id, used by concrete store instances. -/
def profileOfId (n : Nat) : Muji.Profile :=
  { id := n, name := "P", age := 21, gender := "f", nationality := "x",
    city := "y", travel_cities := [], description := "",
    photos := ["/uploads/a.jpg"], height := 170, weight := 55, chest := 3,
    visible := true, created_at := "t0" }

/-- Store holding exactly listings 1 and 3. -/
def c4Store : Muji.AdminData :=
  { Muji.defaultData with profiles := [profileOfId 1, profileOfId 3] }

/-- Upload form with one successfully saved photo. -/
def c4Form : Muji.ProfileForm :=
  { name := "New", age := 22, gender := "f", nationality := "x", city := "y",
    travel_cities := ["a"], description := "d", height := 168, weight := 50,
    chest := 2, photos := [{ filename := "b.jpg", savedUrl := "/uploads/b.jpg" }] }

/-- Witness for C4: with listings {1,3} the created listing gets id 4. -/
theorem C4_create_profile_max_plus_one_witness :
    Muji.photoUrls c4Form.photos ≠ [] ∧
    (∃ d2 p, Muji.create_profile c4Store c4Form "t1" = .ok (d2, p) ∧
      p.id = Muji.maxProfileId c4Store.profiles + 1 ∧
      (c4Store.profiles = [] → p.id = 1) ∧
      d2.profiles = c4Store.profiles ++ [p]) ∧
    Muji.maxProfileId c4Store.profiles + 1 = 4 :=
  ⟨by decide, C4_create_profile_max_plus_one c4Store c4Form "t1" (by decide),
   by decide⟩

/-- C5 counterexample: when the document write fails (`save_data` returns
`False`), the JSON-store `delete_profile` still answers the success body
`{"status": "deleted"}` — the persistence failure is silently swallowed,
contradicting the claimed propagation of a `StorageFailure`. -/
theorem C5_counterexample :
    Muji.delete_profile c1Store 1 false = (c1Store, "deleted") := rfl

/-- C5 (amended): in the SQLite store, an operation run through
`get_db_connection` that fails leaves the durable state unchanged
(rollback) and the error propagates to the caller; the JSON-store
`delete_profile` is atomic at the whole-document level — the persisted
document is either the fully cascaded one or exactly the previous one —
but it returns the success response regardless of whether the write
succeeded, so a write failure is not propagated. -/
theorem C5_failure_semantics_amended {α : Type}
    (op : AppDb.DbState → Except String (AppDb.DbState × α))
    (db : AppDb.DbState) (e : String) (disk : Muji.AdminData) (L : Nat)
    (writeOk : Bool) :
    ((AppDb.runTransaction op db).2 = Except.error e ↔
      op db = Except.error e) ∧
    (op db = Except.error e → (AppDb.runTransaction op db).1 = db) ∧
    Muji.delete_profile disk L writeOk =
      ((if writeOk then Muji.delete_profile_data disk L else disk),
       "deleted") := by
  refine ⟨?_, ?_, ?_⟩
  · unfold AppDb.runTransaction
    cases hop : op db with
    | ok r => cases r; simp
    | error e2 => simp
  · intro h
    unfold AppDb.runTransaction
    rw [h]
  · unfold Muji.delete_profile Muji.save_data
    cases writeOk <;> rfl

/-- Witness for C5 (amended): a concrete failing operation and a concrete
failed document write. -/
theorem C5_failure_semantics_amended_witness :
    ((AppDb.runTransaction (fun _ => (Except.error "disk full" :
        Except String (AppDb.DbState × Nat))) emptyDb).2 =
          Except.error "disk full" ↔
      (fun _ => (Except.error "disk full" :
        Except String (AppDb.DbState × Nat))) emptyDb =
          Except.error "disk full") ∧
    ((fun _ => (Except.error "disk full" :
        Except String (AppDb.DbState × Nat))) emptyDb =
          Except.error "disk full" →
      (AppDb.runTransaction (fun _ => (Except.error "disk full" :
        Except String (AppDb.DbState × Nat))) emptyDb).1 = emptyDb) ∧
    Muji.delete_profile c1Store 1 false =
      ((if false then Muji.delete_profile_data c1Store 1 else c1Store),
       "deleted") :=
  C5_failure_semantics_amended
    (fun _ => (Except.error "disk full" : Except String (AppDb.DbState × Nat)))
    emptyDb "disk full" c1Store 1 false

/-- C6: the sweep deletes exactly the orders whose status is the string
`unpaid` and whose `expires_at` is non-NULL and strictly before the cutoff,
returns the number of rows removed, and never deletes an order in any other
status regardless of its expiry. -/
theorem C6_delete_expired_orders_exact (db : AppDb.DbState) (cutoff : String) :
    (∀ o, o ∈ (AppDb.delete_expired_orders db cutoff).1.orders ↔
        (o ∈ db.orders ∧
          ¬(o.status = "unpaid" ∧
            AppDb.expiresBefore o.expires_at cutoff = true))) ∧
    (AppDb.delete_expired_orders db cutoff).2 +
        (AppDb.delete_expired_orders db cutoff).1.orders.length =
      db.orders.length ∧
    (∀ o ∈ db.orders, o.status ≠ "unpaid" →
        o ∈ (AppDb.delete_expired_orders db cutoff).1.orders) := by
  refine ⟨?_, ?_, ?_⟩
  · intro o
    constructor
    · intro hmem
      obtain ⟨h1, h2⟩ :=
        List.mem_filter.mp (show o ∈ db.orders.filter
          (fun o => !(AppDb.expiredUnpaid cutoff o)) from hmem)
      refine ⟨h1, ?_⟩
      rintro ⟨hs, he⟩
      rw [Bool.not_eq_true'] at h2
      unfold AppDb.expiredUnpaid at h2
      simp [hs, he] at h2
    · rintro ⟨h1, h2⟩
      show o ∈ db.orders.filter (fun o => !(AppDb.expiredUnpaid cutoff o))
      refine List.mem_filter.mpr ⟨h1, ?_⟩
      rw [Bool.not_eq_true']
      unfold AppDb.expiredUnpaid
      by_cases hs : o.status = "unpaid"
      · cases hbe : AppDb.expiresBefore o.expires_at cutoff with
        | false => simp [hs, hbe]
        | true => exact absurd ⟨hs, hbe⟩ h2
      · simp [hs]
  · simpa [AppDb.delete_expired_orders] using
      length_filter_add_length_filter_not (AppDb.expiredUnpaid cutoff)
        db.orders
  · intro o hmem hs
    show o ∈ db.orders.filter (fun o => !(AppDb.expiredUnpaid cutoff o))
    refine List.mem_filter.mpr ⟨hmem, ?_⟩
    unfold AppDb.expiredUnpaid
    simp [hs]

/-- C7: promocode creation stores the code uppercased; creating a code
whose uppercase form is already stored fails and leaves the document
unchanged; and the second of two creations of the same code always
fails. -/
theorem C7_promocode_normalization (d : Muji.AdminData) (code : String)
    (disc disc2 : Int) (t t2 : String) :
    (∀ r, (Muji.create_admin_promocode d code disc t).2 = .ok r →
        r.code = Muji.pyUpper code ∧
        (Muji.create_admin_promocode d code disc t).1.promocodes =
          d.promocodes ++ [r]) ∧
    ((∃ q ∈ d.promocodes, q.code = Muji.pyUpper code) →
        (Muji.create_admin_promocode d code disc t).1 = d ∧
        (Muji.create_admin_promocode d code disc t).2 =
          .error { status := 400, detail := "Promocode already exists" }) ∧
    (∃ e, (Muji.create_admin_promocode
        (Muji.create_admin_promocode d code disc t).1 code disc2 t2).2 =
      .error e) := by
  cases hf : d.promocodes.find? (fun p => decide (p.code = Muji.pyUpper code)) with
  | some q =>
      refine ⟨?_, ?_, ?_⟩
      · intro r hr
        simp [Muji.create_admin_promocode, hf] at hr
      · intro _
        constructor <;> simp [Muji.create_admin_promocode, hf]
      · exact ⟨{ status := 400, detail := "Promocode already exists" },
          by simp [Muji.create_admin_promocode, hf]⟩
  | none =>
      refine ⟨?_, ?_, ?_⟩
      · intro r hr
        simp only [Muji.create_admin_promocode, hf] at hr
        cases hr
        exact ⟨rfl, by simp [Muji.create_admin_promocode, hf]⟩
      · rintro ⟨q, hq, hcode⟩
        have := List.find?_eq_none.mp hf q hq
        simp [hcode] at this
      · have hnp : (fun p : Muji.Promocode =>
            decide (p.code = Muji.pyUpper code))
              { id := d.promocodes.length + 1, code := Muji.pyUpper code,
                discount := disc, is_active := true, used_by := [],
                created_at := t } = true := by simp
        have hfind : ((d.promocodes ++
            [({ id := d.promocodes.length + 1, code := Muji.pyUpper code,
                discount := disc, is_active := true, used_by := [],
                created_at := t } : Muji.Promocode)]).find?
              (fun p => decide (p.code = Muji.pyUpper code))) =
            some { id := d.promocodes.length + 1, code := Muji.pyUpper code,
                   discount := disc, is_active := true, used_by := [],
                   created_at := t } := by
          rw [List.find?_append, hf]
          simp [List.find?_cons_of_pos _ hnp]
        refine ⟨{ status := 400, detail := "Promocode already exists" }, ?_⟩
        simp only [Muji.create_admin_promocode, hf]
        simp [Muji.create_admin_promocode, hfind]

/-- Store holding the already-uppercased promocode `WELCOME15`. -/
def c7Store : Muji.AdminData :=
  { Muji.defaultData with
    promocodes := [{ id := 1, code := "WELCOME15", discount := 15,
                     is_active := true, used_by := [], created_at := "t0" }] }

/-- Witness for C7: creating `welcome15` over an existing `WELCOME15` fails
and leaves the store unchanged, and a repeated creation fails the second
time. -/
theorem C7_promocode_normalization_witness :
    (∃ q ∈ c7Store.promocodes, q.code = Muji.pyUpper "welcome15") ∧
    ((Muji.create_admin_promocode c7Store "welcome15" 15 "t1").1 = c7Store ∧
     (Muji.create_admin_promocode c7Store "welcome15" 15 "t1").2 =
       .error { status := 400, detail := "Promocode already exists" }) ∧
    (∃ e, (Muji.create_admin_promocode
        (Muji.create_admin_promocode c7Store "welcome15" 15 "t1").1
        "welcome15" 15 "t2").2 = .error e) :=
  ⟨by decide,
   (C7_promocode_normalization c7Store "welcome15" 15 15 "t1" "t2").2.1
     (by decide),
   (C7_promocode_normalization c7Store "welcome15" 15 15 "t1" "t2").2.2⟩

/-- Store holding only listing 1, for the reply-handler runs. -/
def c8Store : Muji.AdminData :=
  { Muji.defaultData with profiles := [profileOfId 1] }

/-- C8 (code-bug evaluation): a reply to the existing listing 1 carrying
neither text (whitespace only) nor files is answered with HTTP 500 — the
handler's own `HTTPException(400, "Text or files is required")` is caught
by the surrounding blanket `except Exception` and re-raised as a 500 whose
detail wraps the 400 — and no message is persisted; a reply carrying text
succeeds and stores one message. -/
theorem C8_admin_reply_empty_gives_500 :
    Muji.send_admin_reply c8Store 1 "   " [] "t1" =
      (c8Store,
       .error
         { status := 500
           detail := "Error sending message: 400: Text or files is required" }) ∧
    (Muji.send_admin_reply c8Store 1 "hello" [] "t1").2 = .ok () ∧
    (Muji.send_admin_reply c8Store 1 "hello" [] "t1").1.messages.length = 1 ∧
    (Muji.send_admin_reply c8Store 1 ""
        [{ filename := "a.jpg", savedUrl := "/uploads/a.jpg" }] "t1").2 =
      .ok () := by
  refine ⟨?_, ?_, ?_, ?_⟩ <;> rfl

/-- C9 (amended): `add_file` performs no ownership verification at all —
even when the `users` row for `user_id` carries a different external key
(or no such row exists), it unconditionally inserts the file row with the
caller-supplied owner fields and returns the fresh id; the function has no
failure result. -/
theorem C9_add_file_no_ownership_check (db : AppDb.DbState) (user_id : Nat)
    (tuid : Int) (fn ofn fp : String) (sz : Int) (mt now : String)
    (_hmismatch : ∀ u ∈ db.users, u.id = user_id → u.telegram_id ≠ tuid) :
    (AppDb.add_file db user_id tuid fn ofn fp sz mt now).1.files =
      db.files ++
        [{ id := db.next_file_id
           user_id := user_id
           telegram_user_id := tuid
           filename := fn
           original_filename := ofn
           file_path := fp
           file_size := sz
           mime_type := mt
           uploaded_at := now }] ∧
    (AppDb.add_file db user_id tuid fn ofn fp sz mt now).2 =
      db.next_file_id :=
  ⟨rfl, rfl⟩

/-- C9 counterexample: in a store where user 1's external key is 100,
`add_file(1, 999, ...)` — an ownership mismatch — succeeds: it returns the
fresh id 2 and inserts the row, instead of failing with an
ownership-mismatch error and inserting nothing. -/
theorem C9_counterexample :
    (AppDb.add_file c2Db 1 999 "y.bin" "y.bin" "/up/y.bin" 5 "app/bin"
        "t2").2 = 2 ∧
    (AppDb.add_file c2Db 1 999 "y.bin" "y.bin" "/up/y.bin" 5 "app/bin"
        "t2").1.files.length = c2Db.files.length + 1 ∧
    (∀ u ∈ c2Db.users, u.id = 1 → u.telegram_id ≠ 999) := by
  refine ⟨rfl, rfl, ?_⟩
  decide

/-- Witness for C9 (amended): the unconditional insert at the concrete
mismatched call. -/
theorem C9_add_file_no_ownership_check_witness :
    (∀ u ∈ c2Db.users, u.id = 1 → u.telegram_id ≠ 999) ∧
    ((AppDb.add_file c2Db 1 999 "y.bin" "y.bin" "/up/y.bin" 5 "app/bin"
        "t2").1.files =
      c2Db.files ++
        [{ id := c2Db.next_file_id
           user_id := 1
           telegram_user_id := 999
           filename := "y.bin"
           original_filename := "y.bin"
           file_path := "/up/y.bin"
           file_size := 5
           mime_type := "app/bin"
           uploaded_at := "t2" }] ∧
     (AppDb.add_file c2Db 1 999 "y.bin" "y.bin" "/up/y.bin" 5 "app/bin"
        "t2").2 = c2Db.next_file_id) :=
  ⟨by decide,
   C9_add_file_no_ownership_check c2Db 1 999 "y.bin" "y.bin" "/up/y.bin" 5
     "app/bin" "t2" (by decide)⟩

/-- Listing-creation form with one saved photo, used by the C10 scenario. -/
def c10Form (nm : String) : Muji.ProfileForm :=
  { name := nm, age := 21, gender := "f", nationality := "x", city := "y",
    travel_cities := [], description := "", height := 170, weight := 55,
    chest := 3,
    photos := [{ filename := "a.jpg", savedUrl := "/uploads/a.jpg" }] }

/-- A concrete operation sequence from the fresh document: create listings
1 and 2, send system messages into their chats (ids 1, 2, 3), cascade
listing 1 away (removing messages 1 and 3), then send one more system
message into listing 2's chat — which is assigned id
`len(messages) + 1 = 2`, colliding with the surviving message 2. -/
def c10Chain : Option Muji.AdminData := do
  let (d1, _) ← (Muji.create_profile Muji.defaultData (c10Form "A") "t1").toOption
  let (d2, _) ← (Muji.create_profile d1 (c10Form "B") "t2").toOption
  let (d3, _) ← (Muji.send_system_message d2 1 "hello-1" "t3").toOption
  let (d4, _) ← (Muji.send_system_message d3 2 "hello-2" "t4").toOption
  let (d5, _) ← (Muji.send_system_message d4 1 "hello-3" "t5").toOption
  let d6 := Muji.delete_profile_data d5 1
  let (d7, _) ← (Muji.send_system_message d6 2 "dup" "t7").toOption
  some d7

/-- C10: every message the JSON store creates is assigned id
`len(data["messages"]) + 1` — one plus the current message count, not one
plus the maximum id — for both system messages and admin text replies; and
after `delete_profile` has cascaded messages away, the count-based id
collides with a survivor, so the store reaches a state holding two distinct
message rows with equal ids: message-id uniqueness is not an invariant. -/
theorem C10_message_ids_not_unique :
    (∀ (d : Muji.AdminData) (pid : Nat) (text now : String),
        (d.profiles.find? fun p => decide (p.id = pid)).isSome = true →
        (Muji.send_system_message d pid text now).toOption.map (·.2) =
          some (d.messages.length + 1)) ∧
    (∀ (d : Muji.AdminData) (pid : Nat) (raw now : String),
        (d.profiles.find? fun p => decide (p.id = pid)).isSome = true →
        Muji.pyStrip raw ≠ "" →
        ∃ m, (Muji.send_admin_reply d pid raw [] now).1.messages =
            d.messages ++ [m] ∧ m.id = d.messages.length + 1) ∧
    c10Chain.isSome = true ∧
    (∃ m1 ∈ (c10Chain.getD Muji.defaultData).messages,
     ∃ m2 ∈ (c10Chain.getD Muji.defaultData).messages,
        m1.id = m2.id ∧ m1 ≠ m2) := by
  refine ⟨?_, ?_, ?_, ?_⟩
  · intro d pid text now hp
    obtain ⟨pr, hpr⟩ := Option.isSome_iff_exists.mp hp
    cases hfc : Muji.findOrCreateChat d pid pr.name now with
    | mk chat d1 =>
        have hmsg : d1.messages = d.messages := by
          have h := findOrCreateChat_messages d pid pr.name now
          rw [hfc] at h
          exact h
        simp [Muji.send_system_message, hpr, hfc, hmsg, Except.toOption]
  · intro d pid raw now hp htext
    obtain ⟨pr, hpr⟩ := Option.isSome_iff_exists.mp hp
    cases hfc : Muji.findOrCreateChat d pid pr.name now with
    | mk chat d1 =>
        have hmsg : d1.messages = d.messages := by
          have h := findOrCreateChat_messages d pid pr.name now
          rw [hfc] at h
          exact h
        refine ⟨{ id := d.messages.length + 1
                  chat_id := chat.id
                  text := Muji.pyStrip raw
                  file_url := none
                  file_type := none
                  file_name := none
                  is_from_user := some false
                  is_system := none
                  created_at := now }, ?_, rfl⟩
        simp only [Muji.send_admin_reply, hpr, hfc]
        rw [if_neg (by simp [htext])]
        simp [Muji.appendFileMessages, htext, hmsg]
  · rfl
  · decide

/-- Witness for C10: the id assignment evaluated at the concrete
single-listing store. -/
theorem C10_message_ids_not_unique_witness :
    ((c8Store.profiles.find? fun p => decide (p.id = 1)).isSome = true) ∧
    ((Muji.send_system_message c8Store 1 "x" "t").toOption.map (·.2) =
      some (c8Store.messages.length + 1)) ∧
    Muji.pyStrip "  hi " ≠ "" ∧
    (∃ m, (Muji.send_admin_reply c8Store 1 "  hi " [] "t").1.messages =
        c8Store.messages ++ [m] ∧ m.id = c8Store.messages.length + 1) :=
  ⟨by decide,
   C10_message_ids_not_unique.1 c8Store 1 "x" "t" (by decide),
   by decide,
   C10_message_ids_not_unique.2.1 c8Store 1 "  hi " "t" (by decide)
     (by decide)⟩
